import Mathlib

/-!
Verification of the review sidebar component
(frappe/public/js/frappe/form/sidebar/review.js), shallowly embedded:
JavaScript values that may be strings, booleans or undefined are modelled
by `JVal`; the component's mutable fields (`this.points`,
`energy_point_logs`, the rendered pill list, the dialog's primary-action
enabled flag, the wired click handler) are gathered in `ReviewModel`; the
dialog's `primary_action` becomes a pure step function returning the new
state together with the list of external effects it performs, with the
outcome of the remote `frappe.xcall` passed in as a parameter.
-/

namespace FrappeReview

/-- A JavaScript value as it appears in the involvement computation:
a string, a boolean, or `undefined`. -/
inductive JVal where
  | str : String → JVal
  | bool : Bool → JVal
  | undef : JVal
deriving DecidableEq, Repr

/-- JavaScript truthiness for `JVal`: the empty string, `false` and
`undefined` are falsy. -/
def JVal.truthy : JVal → Bool
  | .str s => !(s == "")
  | .bool b => b
  | .undef => false

/-- JavaScript `a && b`: returns `a` when `a` is falsy, else `b`. -/
def jsAnd (a b : JVal) : JVal :=
  if a.truthy then b else a

/-- One entry of `frm.meta.fields`. -/
structure DocField where
  fieldtype : String
  options : String
  fieldname : String
deriving DecidableEq, Repr

/-- One entry of `docinfo.communications`. -/
structure Communication where
  sender : JVal
  delivery_status : String
deriving DecidableEq, Repr

/-- One entry of `docinfo.comments`, `docinfo.versions` or
`docinfo.assignments`: only the `owner` field is read. -/
structure Authored where
  owner : JVal
deriving DecidableEq, Repr

/-- An energy-point log record as returned by the remote ledger and
stored in `docinfo.energy_point_logs`. -/
structure ReviewRecord where
  user : String
  owner : String
  points : Int
  type : String
  reason : String
  creation : String
deriving DecidableEq, Repr

/-- The document info object: the four history feeds and the review log. -/
structure DocInfo where
  communications : List Communication
  comments : List Authored
  versions : List Authored
  assignments : List Authored
  energy_point_logs : List ReviewRecord
deriving DecidableEq, Repr

/-- Frappe's `Array.prototype.uniqBy` with the identity key: keep the
first occurrence of each element (`seen` accumulates what was kept). -/
def uniqByAux {α : Type} [DecidableEq α] : List α → List α → List α
  | [], _ => []
  | x :: xs, seen =>
    if x ∈ seen then uniqByAux xs seen else x :: uniqByAux xs (x :: seen)

/-- `involved_users.uniqBy(u => u)`. -/
def uniqBy {α : Type} [DecidableEq α] (l : List α) : List α :=
  uniqByAux l []

/-- JavaScript `Array.prototype.includes`. -/
def includesJS (l : List JVal) (u : JVal) : Bool :=
  l.contains u

/-- `get_involved_users` (review.js lines 41-62), translated clause by
clause: collect user-Link field values plus the owner, concatenate the
four history feeds — note that the communications are mapped through
`d.sender && d.delivery_status === 'sent'`, exactly as the source has
it — then `uniqBy`, drop Administrator and the session user, and drop
falsy entries. -/
def get_involved_users (meta_fields : List DocField) (doc : String → JVal)
    (docinfo : DocInfo) (session_user : String) : List JVal :=
  let user_fields :=
    ((meta_fields.filter
        (fun d => d.fieldtype == "Link" && d.options == "User")).map
      (fun d => d.fieldname)) ++ ["owner"]
  let involved_users := user_fields.map doc
  let involved_users := involved_users ++
    docinfo.communications.map
      (fun d => jsAnd d.sender (JVal.bool (d.delivery_status == "sent"))) ++
    docinfo.comments.map (fun d => d.owner) ++
    docinfo.versions.map (fun d => d.owner) ++
    docinfo.assignments.map (fun d => d.owner)
  ((uniqBy involved_users).filter
      (fun user =>
        !(includesJS [JVal.str "Administrator", JVal.str session_user] user))).filter
    JVal.truthy

/-- A rendered review pill: its CSS class and the displayed number. -/
structure Pill where
  cls : String
  display : Int
deriving DecidableEq, Repr

/-- `Math.abs` on the integers that occur here. -/
def mathAbs (n : Int) : Int := |n|

/-- Rendering of one pill (review.js lines 134-140): class is
`criticism` when `log.points < 0`, else `appreciation`; the body shows
`Math.abs(log.points)`. -/
def render_pill (log : ReviewRecord) : Pill :=
  { cls := if log.points < 0 then "criticism" else "appreciation",
    display := mathAbs log.points }

/-- `this.reviews.empty()`: discards whatever pills were rendered. -/
def reviewsEmpty (_ : List Pill) : List Pill := []

/-- `update_reviewers` (review.js lines 128-144): filter the log to the
Appreciation/Criticism types, empty the pill container, then append one
pill per remaining record. -/
def update_reviewers (prev_pills : List Pill) (logs : List ReviewRecord) :
    List Pill :=
  let review_logs :=
    logs.filter (fun log => (["Appreciation", "Criticism"] : List String).contains log.type)
  reviewsEmpty prev_pills ++ review_logs.map render_pill

/-- What the add-review button's click was wired to. -/
inductive ClickHandler where
  | noop
  | openDialog
deriving DecidableEq, Repr

/-- Whether clicking the wired handler opens the review dialog:
`review_button.click(false)` never does, `() => this.show_review_dialog()`
does. -/
def click_opens_dialog : ClickHandler → Bool
  | .noop => false
  | .openDialog => true

/-- JavaScript truthiness of `points.review_points`, which may be a
number or absent: `0` and `undefined` are falsy. -/
def jsTruthyNum : Option Int → Bool
  | none => false
  | some n => !(n == 0)

/-- JavaScript `a > b` where `b` may be absent: any comparison with
`undefined` is false. -/
def jsGtNum (a : Int) : Option Int → Bool
  | none => false
  | some b => decide (b < a)

/-- External effects performed by the dialog's primary action, in the
order they happen. -/
inductive Event where
  | msgprint : String → Event
  | networkCall : Event
  | hideDialog : Event
  | clearDialog : Event
  | prependRecord : Event
  | timelineRefresh : Event
  | updatePills : Event
  | refreshPoints : Event
deriving DecidableEq, Repr

/-- The mutable state of one `frappe.ui.form.Review` instance:
`this.points.review_points`, the document's `energy_point_logs`, the
rendered pill list, whether the dialog's primary action is enabled, the
wired click handler and the hover popover text (when one was set up). -/
structure ReviewModel where
  review_points : Option Int
  energy_point_logs : List ReviewRecord
  reviews : List Pill
  primary_enabled : Bool
  click_handler : ClickHandler
  popover_text : Option String
deriving DecidableEq, Repr

/-- `add_review_button` (review.js lines 23-40): when the cached
`review_points` is falsy the click is wired to `false` (a no-op) and a
hover popover is installed; otherwise the click opens the dialog. -/
def add_review_button (review_points : Option Int) :
    ClickHandler × Option String :=
  if !(jsTruthyNum review_points) then
    (ClickHandler.noop, some "You do not have enough review points")
  else
    (ClickHandler.openDialog, none)

/-- The constructor (review.js lines 7-14): caches `frappe.boot.points`,
wires the button once via `add_review_button`, and renders the pills via
`update_reviewers`. -/
def Review.construct (boot_review_points : Option Int)
    (logs : List ReviewRecord) : ReviewModel :=
  { review_points := boot_review_points,
    energy_point_logs := logs,
    reviews := update_reviewers [] logs,
    primary_enabled := true,
    click_handler := (add_review_button boot_review_points).1,
    popover_text := (add_review_button boot_review_points).2 }

/-- Resolution of `update_points` (review.js lines 15-22): when the
balance fetch resolves, `this.points` is replaced by the returned data.
Nothing else — in particular the button wiring — is touched. -/
def update_points (st : ReviewModel) (data : Option Int) : ReviewModel :=
  { st with review_points := data }

/-- The values collected by the review dialog. -/
structure Values where
  to_user : String
  review_type : String
  points : Int
  reason : String
deriving DecidableEq, Repr

/-- The outcome of the remote `frappe.xcall(... .review, ...)`:
resolution with the created record, or rejection. -/
inductive NetOutcome where
  | success : ReviewRecord → NetOutcome
  | failure : NetOutcome
deriving DecidableEq, Repr

/-- The dialog's `primary_action` (review.js lines 99-123): disable the
primary action; if `values.points > this.points.review_points` show a
message and return; otherwise issue the network call, and when it
resolves hide and clear the dialog, unshift the returned record onto
`energy_point_logs`, refresh the timeline, re-derive the pills and
trigger a points refresh; the `finally` re-enables the primary action
once the call settles, on resolution and on rejection alike. -/
def primary_action (st : ReviewModel) (values : Values)
    (outcome : NetOutcome) : ReviewModel × List Event :=
  let st := { st with primary_enabled := false }
  if jsGtNum values.points st.review_points then
    (st, [Event.msgprint "You do not have enough points"])
  else
    match outcome with
    | NetOutcome.success review =>
      let logs := review :: st.energy_point_logs
      ({ st with
          energy_point_logs := logs,
          reviews := update_reviewers st.reviews logs,
          primary_enabled := true },
        [Event.networkCall, Event.hideDialog, Event.clearDialog,
          Event.prependRecord, Event.timelineRefresh, Event.updatePills,
          Event.refreshPoints])
    | NetOutcome.failure =>
      ({ st with primary_enabled := true }, [Event.networkCall])

/-! Concrete sample states used by the witnesses, counterexamples and
code-bug evaluations below. -/

/-- A document whose only user-valued field is its owner. -/
def docEx3 : String → JVal := fun f =>
  if f == "owner" then JVal.str "owner@example.com" else JVal.undef

/-- A docinfo with a single communication whose delivery status is
`sent`. -/
def docinfoEx3 : DocInfo :=
  { communications :=
      [{ sender := JVal.str "ravi@example.com", delivery_status := "sent" }],
    comments := [], versions := [], assignments := [],
    energy_point_logs := [] }

/-- A document whose only user-valued field is its owner. -/
def docEx4 : String → JVal := fun f =>
  if f == "owner" then JVal.str "owner@example.com" else JVal.undef

/-- A docinfo with empty history feeds. -/
def docinfoEx4 : DocInfo :=
  { communications := [], comments := [], versions := [], assignments := [],
    energy_point_logs := [] }

/-- A freshly constructed review component with 5 cached review points. -/
def stEx1 : ReviewModel := Review.construct (some 5) []

/-- A request for 6 points, one more than the cached balance of 5. -/
def valuesEx1 : Values :=
  { to_user := "coworker@example.com", review_type := "Appreciation",
    points := 6, reason := "needs work" }

/-- A freshly constructed review component with 5 cached review points. -/
def stEx4 : ReviewModel := Review.construct (some 5) []

/-- A request for a negative number of points, addressed to a recipient
who is not in the involvement set. -/
def valuesEx4 : Values :=
  { to_user := "stranger@example.com", review_type := "Criticism",
    points := -5, reason := "bad work" }

/-- A freshly constructed review component with 10 cached review points. -/
def stEx5 : ReviewModel := Review.construct (some 10) []

/-- A request for 3 points, within the cached balance of 10. -/
def valuesEx5 : Values :=
  { to_user := "coworker@example.com", review_type := "Appreciation",
    points := 3, reason := "great work" }

/-- The record the remote ledger returns for the sample submission. -/
def recordEx5 : ReviewRecord :=
  { user := "coworker@example.com", owner := "me@example.com", points := 3,
    type := "Appreciation", reason := "great work",
    creation := "2019-06-01 10:00:00" }

/-- A freshly constructed review component with 10 cached review points. -/
def stEx6 : ReviewModel := Review.construct (some 10) []

/-- A request for 2 points, within the cached balance of 10. -/
def valuesEx6 : Values :=
  { to_user := "peer@example.com", review_type := "Appreciation",
    points := 2, reason := "good catch" }

/-- A freshly constructed review component with 5 cached review points. -/
def stEx7 : ReviewModel := Review.construct (some 5) []

/-- A request for 6 points, one more than the cached balance of 5. -/
def valuesEx7 : Values :=
  { to_user := "coworker@example.com", review_type := "Appreciation",
    points := 6, reason := "great work" }

/-- A review record with points equal to 0, for the boundary case. -/
def recordZeroEx : ReviewRecord :=
  { user := "peer@example.com", owner := "me@example.com", points := 0,
    type := "Appreciation", reason := "neutral",
    creation := "2019-06-01 10:00:00" }

/-! Helper lemmas. -/

/-- The `uniqByAux` accumulator invariant: the output has no duplicates
and is disjoint from the already-seen list. -/
theorem uniqByAux_nodup {α : Type} [DecidableEq α] (l : List α)
    (seen : List α) :
    (uniqByAux l seen).Nodup ∧ ∀ x ∈ uniqByAux l seen, x ∉ seen := by
  induction l generalizing seen with
  | nil => simp [uniqByAux]
  | cons x xs ih =>
    by_cases hx : x ∈ seen
    · simpa [uniqByAux, hx] using ih seen
    · have h1 := ih (x :: seen)
      refine ⟨?_, ?_⟩
      · simp only [uniqByAux, hx, if_false]
        refine List.nodup_cons.mpr ⟨?_, h1.1⟩
        intro hmem
        exact (h1.2 x hmem) (List.mem_cons_self x seen)
      · intro y hy
        simp only [uniqByAux, hx, if_false, List.mem_cons] at hy
        rcases hy with rfl | hy
        · exact hx
        · intro hseen
          exact (h1.2 y hy) (List.mem_cons_of_mem x hseen)

/-- `uniqBy` returns a duplicate-free list. -/
theorem uniqBy_nodup {α : Type} [DecidableEq α] (l : List α) :
    (uniqBy l).Nodup :=
  (uniqByAux_nodup l []).1

/-- The resolver's filter pipeline keeps no element that the
includes-check matches. -/
theorem filter_pipeline_excludes (L : List JVal) (session_user : String)
    (u : JVal)
    (hu : includesJS [JVal.str "Administrator", JVal.str session_user] u =
      true) :
    u ∉ ((uniqBy L).filter
        (fun v =>
          !(includesJS [JVal.str "Administrator", JVal.str session_user]
            v))).filter
      JVal.truthy := by
  intro hmem
  have h1 := (List.mem_filter.mp hmem).1
  have h2 := (List.mem_filter.mp h1).2
  rw [hu] at h2
  simp at h2

/-! Claim theorems. -/

/-- Claim C2: for every document state, the involvement resolver's
output never contains the current acting user, never contains
`Administrator`, has no duplicate entries, and has no falsy entries. -/
theorem resolver_eligible_and_nodup (meta_fields : List DocField)
    (doc : String → JVal) (docinfo : DocInfo) (session_user : String) :
    JVal.str session_user ∉
      get_involved_users meta_fields doc docinfo session_user ∧
    JVal.str "Administrator" ∉
      get_involved_users meta_fields doc docinfo session_user ∧
    (get_involved_users meta_fields doc docinfo session_user).Nodup ∧
    ∀ u ∈ get_involved_users meta_fields doc docinfo session_user,
      u.truthy = true := by
  unfold get_involved_users
  refine ⟨?_, ?_, ?_, ?_⟩
  · exact filter_pipeline_excludes _ _ _ (by simp [includesJS])
  · exact filter_pipeline_excludes _ _ _ (by simp [includesJS])
  · exact ((uniqBy_nodup _).filter _).filter _
  · intro u hu
    exact (List.mem_filter.mp hu).2

/-- Claim C3 (code bug): on a document with one communication whose
delivery status is `sent` and whose sender is `ravi@example.com`, the
resolver output is `[owner, true]` — the literal boolean produced by
mapping the communication through the expression
`d.sender && d.delivery_status === 'sent'` — and the sender identifier
itself never appears in the output, contrary to the claim that senders
of sent communications are concatenated into the candidate list. -/
theorem resolver_maps_sent_comms_to_boolean :
    get_involved_users [] docEx3 docinfoEx3 "me@example.com" =
      [JVal.str "owner@example.com", JVal.bool true] ∧
    JVal.str "ravi@example.com" ∉
      get_involved_users [] docEx3 docinfoEx3 "me@example.com" := by
  decide

/-- Claim C1: whenever the requested points exceed the cached balance,
the primary action only shows the insufficient-points message: no
network call is issued, the review history, the cached balance and the
rendered pills all keep their prior values. -/
theorem submit_insufficient_points_aborts (st : ReviewModel)
    (values : Values) (outcome : NetOutcome)
    (h : jsGtNum values.points st.review_points = true) :
    (primary_action st values outcome).2 =
      [Event.msgprint "You do not have enough points"] ∧
    Event.networkCall ∉ (primary_action st values outcome).2 ∧
    (primary_action st values outcome).1.energy_point_logs =
      st.energy_point_logs ∧
    (primary_action st values outcome).1.review_points =
      st.review_points ∧
    (primary_action st values outcome).1.reviews = st.reviews := by
  simp [primary_action, h]

/-- Witness for C1: a concrete over-budget request (6 points against a
cached balance of 5) satisfies the hypothesis and the conclusion. -/
theorem submit_insufficient_points_aborts_witness :
    jsGtNum valuesEx1.points stEx1.review_points = true ∧
    ((primary_action stEx1 valuesEx1 NetOutcome.failure).2 =
        [Event.msgprint "You do not have enough points"] ∧
      Event.networkCall ∉
        (primary_action stEx1 valuesEx1 NetOutcome.failure).2 ∧
      (primary_action stEx1 valuesEx1 NetOutcome.failure).1.energy_point_logs =
        stEx1.energy_point_logs ∧
      (primary_action stEx1 valuesEx1 NetOutcome.failure).1.review_points =
        stEx1.review_points ∧
      (primary_action stEx1 valuesEx1 NetOutcome.failure).1.reviews =
        stEx1.reviews) :=
  ⟨by decide,
    submit_insufficient_points_aborts stEx1 valuesEx1 NetOutcome.failure
      (by decide)⟩

/-- Claim C4 counterexample: a request whose recipient is not in the
involvement set and whose points are negative is not rejected locally —
the network call is issued anyway, because the only local check in the
primary action is the budget comparison. -/
theorem submit_no_local_recipient_or_positivity_check :
    JVal.str "stranger@example.com" ∉
      get_involved_users [] docEx4 docinfoEx4 "me@example.com" ∧
    valuesEx4.points ≤ 0 ∧
    Event.networkCall ∈
      (primary_action stEx4 valuesEx4 NetOutcome.failure).2 := by
  decide

/-- Claim C4 amended: the network call is issued exactly when the budget
check passes, i.e. when `values.points > this.points.review_points` is
false; membership of the recipient in the involvement set and
positivity of the points are not validated locally. -/
theorem submit_network_call_iff_budget_ok (st : ReviewModel)
    (values : Values) (outcome : NetOutcome) :
    Event.networkCall ∈ (primary_action st values outcome).2 ↔
      jsGtNum values.points st.review_points = false := by
  cases h : jsGtNum values.points st.review_points <;>
    cases outcome <;> simp [primary_action, h]

/-- Claim C5: after a successful submission, the ledger's record is
prepended to the review history (length grows by exactly one and the
prior sequence is a suffix), the rendered pills are re-derived from the
new history, and the effect trace is exactly: network call, hide dialog,
clear dialog, prepend record, timeline refresh, pill re-derivation,
points refresh — in that order. -/
theorem submit_success_prepends_then_renders (st : ReviewModel)
    (values : Values) (record : ReviewRecord)
    (h : jsGtNum values.points st.review_points = false) :
    (primary_action st values (NetOutcome.success record)).1.energy_point_logs =
      record :: st.energy_point_logs ∧
    (primary_action st values
        (NetOutcome.success record)).1.energy_point_logs.length =
      st.energy_point_logs.length + 1 ∧
    List.IsSuffix st.energy_point_logs
      (primary_action st values
        (NetOutcome.success record)).1.energy_point_logs ∧
    (primary_action st values (NetOutcome.success record)).1.reviews =
      update_reviewers st.reviews (record :: st.energy_point_logs) ∧
    (primary_action st values (NetOutcome.success record)).2 =
      [Event.networkCall, Event.hideDialog, Event.clearDialog,
        Event.prependRecord, Event.timelineRefresh, Event.updatePills,
        Event.refreshPoints] := by
  refine ⟨?_, ?_, ?_, ?_, ?_⟩ <;> simp [primary_action, h]

/-- Witness for C5: a concrete in-budget request of 3 points against a
balance of 10, with a concrete returned record. -/
theorem submit_success_prepends_then_renders_witness :
    jsGtNum valuesEx5.points stEx5.review_points = false ∧
    ((primary_action stEx5 valuesEx5
        (NetOutcome.success recordEx5)).1.energy_point_logs =
        recordEx5 :: stEx5.energy_point_logs ∧
      (primary_action stEx5 valuesEx5
          (NetOutcome.success recordEx5)).1.energy_point_logs.length =
        stEx5.energy_point_logs.length + 1 ∧
      List.IsSuffix stEx5.energy_point_logs
        (primary_action stEx5 valuesEx5
          (NetOutcome.success recordEx5)).1.energy_point_logs ∧
      (primary_action stEx5 valuesEx5
          (NetOutcome.success recordEx5)).1.reviews =
        update_reviewers stEx5.reviews
          (recordEx5 :: stEx5.energy_point_logs) ∧
      (primary_action stEx5 valuesEx5 (NetOutcome.success recordEx5)).2 =
        [Event.networkCall, Event.hideDialog, Event.clearDialog,
          Event.prependRecord, Event.timelineRefresh, Event.updatePills,
          Event.refreshPoints]) :=
  ⟨by decide,
    submit_success_prepends_then_renders stEx5 valuesEx5 recordEx5
      (by decide)⟩

/-- Claim C6: every submission that reaches the network call ends with
the primary action re-enabled, whether the remote call resolves or
rejects. -/
theorem submit_control_reenabled_on_settle (st : ReviewModel)
    (values : Values) (outcome : NetOutcome)
    (h : jsGtNum values.points st.review_points = false) :
    Event.networkCall ∈ (primary_action st values outcome).2 ∧
    (primary_action st values outcome).1.primary_enabled = true := by
  cases outcome <;> simp [primary_action, h]

/-- Witness for C6: a concrete in-budget request of 2 points against a
balance of 10, with the remote call rejecting. -/
theorem submit_control_reenabled_on_settle_witness :
    jsGtNum valuesEx6.points stEx6.review_points = false ∧
    (Event.networkCall ∈
        (primary_action stEx6 valuesEx6 NetOutcome.failure).2 ∧
      (primary_action stEx6 valuesEx6
        NetOutcome.failure).1.primary_enabled = true) :=
  ⟨by decide,
    submit_control_reenabled_on_settle stEx6 valuesEx6 NetOutcome.failure
      (by decide)⟩

/-- Claim C7 (code bug): a submission rejected by the local budget check
leaves the primary action disabled — the code disables it first, then
returns from the message branch without re-enabling, and the `finally`
cleanup is attached only to the network promise that is never created
on this path. -/
theorem budget_reject_leaves_control_disabled :
    (primary_action stEx7 valuesEx7 NetOutcome.failure).2 =
      [Event.msgprint "You do not have enough points"] ∧
    (primary_action stEx7 valuesEx7 NetOutcome.failure).1.primary_enabled =
      false := by
  decide

/-- Claim C8: a pill's class is `criticism` exactly when the record's
points are negative and `appreciation` exactly when they are
non-negative, the displayed number is the absolute value of the points,
and the zero-points record renders with the `appreciation` class. -/
theorem pill_class_by_sign_and_abs_display (log : ReviewRecord) :
    ((render_pill log).cls = "criticism" ↔ log.points < 0) ∧
    ((render_pill log).cls = "appreciation" ↔ 0 ≤ log.points) ∧
    (render_pill log).display = |log.points| ∧
    (render_pill recordZeroEx).cls = "appreciation" := by
  by_cases h : log.points < 0 <;>
    (simp [render_pill, mathAbs, recordZeroEx, h]; try omega)

/-- Claim C9: re-deriving the pill list from the same history twice
gives exactly the same output as deriving it once (the container is
emptied before appending), and the derived pills are exactly the
history filtered to the Appreciation/Criticism types, rendered. -/
theorem pill_rederive_idempotent_and_exact (prev_pills : List Pill)
    (logs : List ReviewRecord) :
    update_reviewers (update_reviewers prev_pills logs) logs =
      update_reviewers prev_pills logs ∧
    update_reviewers prev_pills logs =
      (logs.filter
          (fun log =>
            decide (log.type = "Appreciation" ∨ log.type = "Criticism"))).map
        render_pill := by
  refine ⟨rfl, ?_⟩
  unfold update_reviewers reviewsEmpty
  simp only [List.nil_append]
  congr 1
  apply List.filter_congr
  intro log _
  by_cases h1 : log.type = "Appreciation"
  · simp [h1]
  · by_cases h2 : log.type = "Criticism"
    · simp [h1, h2]
    · simp [h1, h2]

/-- Folding any sequence of balance refreshes over the component never
changes the wired click handler. -/
theorem update_points_foldl_click_handler (st : ReviewModel)
    (updates : List (Option Int)) :
    (updates.foldl update_points st).click_handler = st.click_handler := by
  induction updates generalizing st with
  | nil => rfl
  | cons d ds ih =>
    rw [List.foldl_cons, ih]
    rfl

/-- Claim C10: when the cached review points are falsy at construction,
the button is wired to the no-op handler with the not-enough-points
popover, and after any sequence of later balance refreshes a click
still never opens the review dialog — the gating is decided once at
construction. -/
theorem button_gating_fixed_at_construction (boot : Option Int)
    (logs : List ReviewRecord) (updates : List (Option Int))
    (h : jsTruthyNum boot = false) :
    (Review.construct boot logs).click_handler = ClickHandler.noop ∧
    (Review.construct boot logs).popover_text =
      some "You do not have enough review points" ∧
    click_opens_dialog
      (updates.foldl update_points
        (Review.construct boot logs)).click_handler = false := by
  have hh : (Review.construct boot logs).click_handler =
      ClickHandler.noop := by
    simp [Review.construct, add_review_button, h]
  refine ⟨hh, ?_, ?_⟩
  · simp [Review.construct, add_review_button, h]
  · rw [update_points_foldl_click_handler, hh]
    rfl

/-- Witness for C10: a zero balance at construction, followed by a
refresh that raises the balance to 25, still leaves the no-op handler
wired. -/
theorem button_gating_fixed_at_construction_witness :
    jsTruthyNum (some 0) = false ∧
    ((Review.construct (some 0) []).click_handler = ClickHandler.noop ∧
      (Review.construct (some 0) []).popover_text =
        some "You do not have enough review points" ∧
      click_opens_dialog
        (([some 25] : List (Option Int)).foldl update_points
          (Review.construct (some 0) [])).click_handler = false) :=
  ⟨by decide,
    button_gating_fixed_at_construction (some 0) [] [some 25] (by decide)⟩

end FrappeReview
